import Mathlib

/-!
Verification of the TeamSpeak MCP server core
(`mcp_servers/python/servers/TEAMSPEAK/teamspeak_mcp/server.py`):
the cursor-driven log-pagination engine (`_view_server_logs_complete_impl`),
the connection manager (`TeamSpeakConnection.connect`,
`get_connection_from_args`), and the tool dispatcher (`handle_call_tool`,
`_kick_client`, `_list_clients`).

The Python code is embedded shallowly: remote interactions are modelled by
an oracle giving the outcome of each remote request in order; dictionaries
become association lists or records of `Option` fields; raised exceptions
become the `Except.error` side of an explicit result.
-/

namespace TeamSpeakMCP

/-! ## Log pagination engine (`_view_server_logs_complete_impl`)

The loop keeps three mutable variables: `all_logs` (accumulated lines),
`current_pos` (the `begin_pos` cursor, `None` before the first response),
and `iteration`.  Each pass of `while iteration < max_iterations` issues
exactly one `logview` request.
-/

/-- One entry of `response.parsed`: the optional text under the key `l`
(`if 'l' in entry: logs_batch.append(entry['l'])`). -/
abbrev LogEntry := Option String

/-- The shape of a `logview` response as consumed by the loop:
`parsed` is `none` when the attribute is missing or falsy (`None`);
`last_pos` is `none` when the attribute is missing. -/
structure LogResponse where
  parsed : Option (List LogEntry)
  last_pos : Option Nat
deriving DecidableEq

/-- Outcome of one remote `logview` request: either it raises or it
returns a response. -/
inductive RemoteOutcome where
  | raised
  | resp (r : LogResponse)
deriving DecidableEq

/-- The parameter dict sent to `logview`
(`lines`, `reverse`, `instance`, optional `begin_pos`). -/
structure LogRequest where
  lines : Nat
  reverse : Bool
  instance_log : Bool
  begin_pos : Option Nat
deriving DecidableEq, Repr

/-- Build the `params` dict of one loop pass: `lines = min(lines, 100)`,
overridden to `1` together with `begin_pos = current_pos` when a cursor
is held. -/
def mkRequest (lines : Nat) (reverse instance_log : Bool)
    (current_pos : Option Nat) : LogRequest :=
  match current_pos with
  | none => { lines := min lines 100, reverse := reverse,
              instance_log := instance_log, begin_pos := none }
  | some p => { lines := 1, reverse := reverse,
                instance_log := instance_log, begin_pos := some p }

/-- The loop's mutable state: `all_logs`, `current_pos`, `iteration`. -/
structure LoopState where
  all_logs : List String
  current_pos : Option Nat
  iteration : Nat
deriving DecidableEq, Repr

/-- `logs_batch`: the `l` fields of the parsed entries, in order. -/
def extractBatch (entries : List LogEntry) : List String :=
  entries.filterMap id

/-- Result of processing one (non-raising) response inside the loop body:
either a `break` with the state at that point, or fall-through to the next
`while` test with the updated state. -/
inductive StepOut where
  | halted (s : LoopState)
  | next (s : LoopState)
deriving DecidableEq

/-- The loop body after the `logview` call returned `r`:
break when `parsed` is missing/empty, when no entry carries an `l` text,
when `last_pos` is missing, zero, or equal to `current_pos`; otherwise
adopt the new cursor and increment `iteration`. -/
def stepResponse (s : LoopState) (r : LogResponse) : StepOut :=
  match r.parsed with
  | none => .halted s
  | some entries =>
    if entries.isEmpty then .halted s
    else if (extractBatch entries).isEmpty then .halted s
    else
      match r.last_pos with
      | none => .halted { s with all_logs := s.all_logs ++ extractBatch entries }
      | some np =>
        if np = 0 ∨ some np = s.current_pos then
          .halted { s with all_logs := s.all_logs ++ extractBatch entries }
        else
          .next { all_logs := s.all_logs ++ extractBatch entries,
                  current_pos := some np, iteration := s.iteration + 1 }

/-- The `while iteration < max_iterations` loop.  The oracle maps the index
of a request (number of requests already issued) to its outcome; a raised
outcome is caught by the surrounding `try`/`except`, which keeps the state
accumulated so far.  `fuel` bounds the recursion; every continuing pass
increments `iteration` by one, so `fuel = max_iterations` from the initial
state makes the `0` case unreachable.  Returns the final loop state and the
list of requests issued, in order. -/
def runLoopAux (oracle : Nat → RemoteOutcome) (lines : Nat)
    (reverse instance_log : Bool) (maxIterations : Nat) :
    Nat → LoopState → List LogRequest → LoopState × List LogRequest
  | 0, s, acc => (s, acc)
  | fuel + 1, s, acc =>
    if s.iteration < maxIterations then
      let req := mkRequest lines reverse instance_log s.current_pos
      match oracle acc.length with
      | .raised => (s, acc ++ [req])
      | .resp r =>
        match stepResponse s r with
        | .halted s1 => (s1, acc ++ [req])
        | .next s1 =>
          runLoopAux oracle lines reverse instance_log maxIterations
            fuel s1 (acc ++ [req])
    else (s, acc)

/-- `_view_server_logs_complete_impl`: run the pagination loop from the
initial state (`all_logs = []`, `current_pos = None`, `iteration = 0`).
The `enhanced_debug` flag is accepted and ignored, as in the source. -/
def viewServerLogsComplete (oracle : Nat → RemoteOutcome) (lines : Nat)
    (reverse instance_log : Bool) (maxIterations : Nat)
    (_enhanced_debug : Bool := false) : LoopState × List LogRequest :=
  runLoopAux oracle lines reverse instance_log maxIterations
    maxIterations { all_logs := [], current_pos := none, iteration := 0 } []

/-! ## Connection manager (`TeamSpeakConnection`, `get_connection_from_args`)

`TeamSpeakConnection.__init__` falls back from each constructor argument to
an environment variable and then a built-in default; the Python `or` also
skips falsy values (empty string, `0`).  The environment lookups are
modelled by an `EnvDefaults` record holding the already-resolved values.
-/

/-- The resolved values of `os.getenv("TEAMSPEAK_HOST", "localhost")` etc.
at process start. -/
structure EnvDefaults where
  host : String
  port : Nat
  user : String
  password : String
  server_id : Nat
deriving DecidableEq, Repr

/-- A `TeamSpeakConnection` object: the optional live TS3 handle plus the
credential fields set in `__init__`. -/
structure TeamSpeakConnection where
  connection : Option Unit
  host : String
  port : Nat
  user : String
  password : String
  server_id : Nat
deriving DecidableEq, Repr

/-- Python `x or y` for an optional string argument: `None` and `""` fall
through to the default. -/
def orElseStr (x : Option String) (y : String) : String :=
  match x with
  | some s => if s = "" then y else s
  | none => y

/-- Python `x or y` for an optional integer argument: `None` and `0` fall
through to the default. -/
def orElseNat (x : Option Nat) (y : Nat) : Nat :=
  match x with
  | some n => if n = 0 then y else n
  | none => y

/-- `TeamSpeakConnection.__init__`: `connection = None`, each field from
the argument or the environment default. -/
def TeamSpeakConnection.init (env : EnvDefaults) (host : Option String)
    (port : Option Nat) (user : Option String) (password : Option String)
    (server_id : Option Nat) : TeamSpeakConnection :=
  { connection := none
    host := orElseStr host env.host
    port := orElseNat port env.port
    user := orElseStr user env.user
    password := orElseStr password env.password
    server_id := orElseNat server_id env.server_id }

/-- `TeamSpeakConnection.is_connected`: true iff the live handle is
present. -/
def TeamSpeakConnection.is_connected (c : TeamSpeakConnection) : Bool :=
  c.connection.isSome

/-- The nested `teamspeak_credentials` dict of an invocation: each key
optional, read with `creds.get(key, default)`. -/
structure Creds where
  host : Option String
  port : Option Nat
  user : Option String
  password : Option String
  server_id : Option Nat
deriving DecidableEq, Repr

/-- The session `get_connection_from_args` resolves to: either the global
shared `ts_connection` or a freshly constructed ephemeral connection. -/
inductive ResolvedConn where
  | sharedConn
  | ephemeral (c : TeamSpeakConnection)
deriving DecidableEq

/-- `get_connection_from_args`: with a `teamspeak_credentials` argument
present, build a brand-new `TeamSpeakConnection` from the credential dict
(dict-level defaults `localhost`/`10011`/`serveradmin`/`""`/`1`);
otherwise use the global connection.  The global connection is threaded
explicitly and returned unchanged, mirroring that the Python function
never assigns to it. -/
def get_connection_from_args (env : EnvDefaults)
    (shared : TeamSpeakConnection) (creds? : Option Creds) :
    ResolvedConn × TeamSpeakConnection :=
  match creds? with
  | some creds =>
    (.ephemeral (TeamSpeakConnection.init env
        (some (creds.host.getD "localhost"))
        (some (creds.port.getD 10011))
        (some (creds.user.getD "serveradmin"))
        (some (creds.password.getD ""))
        (some (creds.server_id.getD 1))),
     shared)
  | none => (.sharedConn, shared)

/-! ### `TeamSpeakConnection.connect`

The body is one `try` block: obtain the transport handle
(`ts3.query.TS3Connection(host, port)`), select the virtual server
(`use(sid)`), then run the authentication fallback chain
(login, then token redemption) and a `whoami` smoke test, each in its own
inner `try` whose failure is only logged.  Any exception escaping to the
outer `except` clears the handle and returns `False`; otherwise the
function returns `True`.
-/

/-- Which of the remote operations attempted during `connect` succeed. -/
structure ConnectOutcomes where
  transportOk : Bool
  useOk : Bool
  loginOk : Bool
  tokenOk : Bool
  whoamiOk : Bool
deriving DecidableEq, Repr

/-- Which operations `connect` actually attempted in a run. -/
structure ConnectTrace where
  transportObtained : Bool
  loginAttempted : Bool
  tokenAttempted : Bool
  whoamiAttempted : Bool
deriving DecidableEq, Repr

/-- `TeamSpeakConnection.connect`: returns the boolean result, the
connection object afterwards (handle set on success, cleared on failure),
and the trace of attempted operations. -/
def TeamSpeakConnection.connect (c : TeamSpeakConnection)
    (oc : ConnectOutcomes) : Bool × TeamSpeakConnection × ConnectTrace :=
  if ¬ oc.transportOk then
    (false, { c with connection := none },
     { transportObtained := false, loginAttempted := false,
       tokenAttempted := false, whoamiAttempted := false })
  else if ¬ oc.useOk then
    (false, { c with connection := none },
     { transportObtained := true, loginAttempted := false,
       tokenAttempted := false, whoamiAttempted := false })
  else
    let hasPassword := c.password ≠ ""
    (true, { c with connection := some () },
     { transportObtained := true
       loginAttempted := hasPassword
       tokenAttempted := hasPassword && ¬ oc.loginOk
       whoamiAttempted := true })

/-! ## Tool dispatcher (`handle_call_tool` and the tool handlers)

Arguments arrive as a dict; it is modelled as an association list of typed
values.  Raised Python exceptions become the `Except.error` side of the
handler result; `handle_call_tool` wraps any escaping exception `e` into
`Exception(f"Error: {str(e)}")`, which propagates to the caller (it is not
returned as a content envelope).  Each handler run also produces a
`CallTrace` recording how often the connection manager was consulted and
which remote commands were issued.
-/

/-- A value in the arguments dict. -/
inductive Val where
  | str (s : String)
  | nat (n : Nat)
  | bool (b : Bool)
  | credsV (c : Creds)
deriving DecidableEq

/-- The arguments dict. -/
abbrev Args := List (String × Val)

/-- Dict lookup (`args.get(key)` / `key in args`). -/
def Args.get (a : Args) (k : String) : Option Val :=
  (a.find? (fun p => p.1 == k)).map (fun p => p.2)

/-- The `teamspeak_credentials` entry, when present (it always holds a
nested credential dict in well-formed invocations). -/
def Args.getCreds (a : Args) : Option Creds :=
  match a.get "teamspeak_credentials" with
  | some (.credsV c) => some c
  | _ => none

/-- `str(v)` as interpolated into handler result messages. -/
def Val.pyStr : Val → String
  | .str s => s
  | .nat n => toString n
  | .bool b => if b then "True" else "False"
  | .credsV _ => "teamspeak_credentials"

/-- An exception value: a `KeyError` from a missing dict key (whose `str`
is the quoted key), or a generic exception with a message. -/
inductive PyErr where
  | keyError (key : String)
  | exc (msg : String)
deriving DecidableEq

/-- `str(e)` for an exception. -/
def PyErr.str : PyErr → String
  | .keyError k => "\x27" ++ k ++ "\x27"
  | .exc m => m

/-- Observable side effects of one tool invocation:
how many times `get_connection_from_args` ran, how many times
`connect()` was attempted, and which remote handler commands were
issued (in order). -/
structure CallTrace where
  sessionResolutions : Nat
  connectCalls : Nat
  remoteCommands : List String
deriving DecidableEq, Repr

/-- One record of `response.parsed` from `clientlist`; the handler reads
`clid`, `client_nickname` and `cid` with default `"N/A"`. -/
structure ClientRec where
  clid : Option String
  client_nickname : Option String
  cid : Option String
deriving DecidableEq, Repr

/-- Outcomes of the remote operations a dispatched call may perform. -/
structure DispatchEnv where
  connectOutcomes : ConnectOutcomes
  clientkickResult : Except String Unit
  clientlistResult : Except String (List ClientRec)

/-- The common handler prelude:
`connection = get_connection_from_args(args)`; if it is not connected,
`connect()`; a failed connect raises
`Exception("Failed to connect to TeamSpeak server")`. -/
def resolveAndConnect (env : DispatchEnv) (envDef : EnvDefaults)
    (shared : TeamSpeakConnection) (creds? : Option Creds) :
    Except PyErr TeamSpeakConnection × CallTrace :=
  let resolved := (get_connection_from_args envDef shared creds?).1
  let conn := match resolved with
    | .sharedConn => shared
    | .ephemeral c => c
  if conn.is_connected then
    (.ok conn, { sessionResolutions := 1, connectCalls := 0,
                 remoteCommands := [] })
  else
    let (success, conn2, _) := conn.connect env.connectOutcomes
    if success then
      (.ok conn2, { sessionResolutions := 1, connectCalls := 1,
                    remoteCommands := [] })
    else
      (.error (.exc "Failed to connect to TeamSpeak server"),
       { sessionResolutions := 1, connectCalls := 1, remoteCommands := [] })

/-- `_kick_client`: resolve/connect first, then read the required
`client_id` (a missing key raises `KeyError`), the optional `reason` and
`from_server`, and only then issue the remote `clientkick`. -/
def kickClient (env : DispatchEnv) (envDef : EnvDefaults)
    (shared : TeamSpeakConnection) (args : Args) :
    Except PyErr (List String) × CallTrace :=
  match resolveAndConnect env envDef shared args.getCreds with
  | (.error e, t) => (.error e, t)
  | (.ok _conn, t) =>
    match args.get "client_id" with
    | none => (.error (.keyError "client_id"), t)
    | some client_id =>
      let reason := match args.get "reason" with
        | some v => v.pyStr
        | none => "Expelled by AI"
      let from_server := match args.get "from_server" with
        | some (.bool b) => b
        | _ => false
      let t2 := { t with remoteCommands := t.remoteCommands ++ ["clientkick"] }
      match env.clientkickResult with
      | .ok _ =>
        let location := if from_server then "from server" else "from channel"
        (.ok ["✅ Client " ++ client_id.pyStr ++ " kicked " ++ location ++
              ": " ++ reason], t2)
      | .error msg =>
        (.error (.exc ("Error kicking client: " ++ msg)), t2)

/-- Boolean infix test on character lists. -/
def isInfixB (n : List Char) : List Char → Bool
  | [] => n.isEmpty
  | c :: rest => n.isPrefixOf (c :: rest) || isInfixB n rest

/-- Substring test (Python `needle in haystack`). -/
def containsSub (needle hay : String) : Bool :=
  isInfixB needle.toList hay.toList

/-- The expanded remediation message `_list_clients` returns when the
remote error message signals insufficient permissions (apostrophes and
braces of the source text written as escapes). -/
def listClientsPermissionDiagnostic (conn : TeamSpeakConnection) : String :=
  "❌ **Erreur de permissions insuffisantes**\n\n" ++
  "La commande `list_clients` nécessite des permissions élevées.\n\n" ++
  "**🔧 Solutions possibles :**\n\n" ++
  "1. **Vérifiez votre mot de passe :**\n" ++
  "   - Utilisez un mot de passe ServerQuery valide\n" ++
  "   - Ou utilisez un token admin (commençant par \x27token=\x27)\n\n" ++
  "2. **Créez un utilisateur ServerQuery :**\n" ++
  "   ```\n" ++
  "   # Connectez-vous au ServerQuery\n" ++
  "   serverqueryadd client_login_name=mcp_user client_login_password=votre_mot_de_passe\n" ++
  "   servergroupaddclient sgid=6 cldbid=ID_USER  # Groupe Server Admin\n" ++
  "   ```\n\n" ++
  "3. **Obtenez un token admin :**\n" ++
  "   - Regardez les logs du serveur TS3 au démarrage\n" ++
  "   - Ou utilisez: `tokenadd tokentype=0 tokenid1=6`\n\n" ++
  "4. **Vérifiez la configuration :**\n" ++
  "   - Host: " ++ conn.host ++ "\n" ++
  "   - User: " ++ conn.user ++ "\n" ++
  "   - Password: " ++ (if conn.password ≠ "" then "[SET]" else "[NOT SET]") ++ "\n\n" ++
  "**🔍 Test rapide :**\n" ++
  "Essayez d\x27abord avec `server_info` qui nécessite moins de permissions."

/-- The `except` clause of `_list_clients`: the known insufficient-
privilege signatures (`error id 2568`, `insufficient client permissions`)
are special-cased into a returned diagnostic envelope; every other error
is re-raised as `Exception(f"Error retrieving clients: {e}")`. -/
def listClientsCatch (conn : TeamSpeakConnection) (errMsg : String) :
    Except PyErr (List String) :=
  if containsSub "error id 2568" errMsg ||
     containsSub "insufficient client permissions" errMsg then
    .ok [listClientsPermissionDiagnostic conn]
  else
    .error (.exc ("Error retrieving clients: " ++ errMsg))

/-- One line of the `_list_clients` success listing. -/
def formatClientLine (c : ClientRec) : String :=
  "• **ID " ++ c.clid.getD "N/A" ++ "**: " ++ c.client_nickname.getD "N/A" ++
  " (Channel: " ++ c.cid.getD "N/A" ++ ")\n"

/-- `_list_clients`: resolve/connect, issue `clientlist`, format the
records on success, classify the error on failure. -/
def listClients (env : DispatchEnv) (envDef : EnvDefaults)
    (shared : TeamSpeakConnection) (args : Args) :
    Except PyErr (List String) × CallTrace :=
  match resolveAndConnect env envDef shared args.getCreds with
  | (.error e, t) => (.error e, t)
  | (.ok conn, t) =>
    let t2 := { t with remoteCommands := t.remoteCommands ++ ["clientlist"] }
    match env.clientlistResult with
    | .ok clients =>
      (.ok ["👥 **Connected clients:**\n\n" ++
            String.join (clients.map formatClientLine)], t2)
    | .error msg => (listClientsCatch conn msg, t2)

/-- The tool names of the `handle_call_tool` dispatch chain, in source
order. -/
def TOOL_NAMES : List String :=
  ["connect_to_server", "send_channel_message", "send_private_message",
   "poke_client", "list_clients", "list_channels", "create_channel",
   "delete_channel", "move_client", "kick_client", "ban_client",
   "server_info", "update_channel", "set_channel_talk_power",
   "channel_info", "manage_channel_permissions", "client_info_detailed",
   "update_server_settings", "manage_user_permissions",
   "diagnose_permissions", "list_server_groups", "assign_client_to_group",
   "create_server_group", "manage_server_group_permissions", "list_bans",
   "manage_ban_rules", "list_complaints", "search_clients",
   "find_channels", "list_privilege_tokens", "create_privilege_token",
   "list_files", "get_file_info", "manage_file_permissions",
   "view_server_logs", "add_log_entry", "get_connection_info",
   "create_server_snapshot", "deploy_server_snapshot", "get_instance_logs"]

/-- Result of one `handle_call_tool` call: a returned content envelope, a
propagated (re-raised) exception, or delegation to one of the tool
handlers whose body is outside the verified core (the registry lookup
still succeeded for it). -/
inductive DispatchOutcome where
  | envelope (texts : List String) (t : CallTrace)
  | thrown (msg : String) (t : CallTrace)
  | delegated (name : String)
deriving DecidableEq

/-- The `try`/`except` of `handle_call_tool`: an exception `e` escaping a
handler is re-raised as `Exception(f"Error: {str(e)}")`. -/
def wrapHandler : Except PyErr (List String) × CallTrace → DispatchOutcome
  | (.ok texts, t) => .envelope texts t
  | (.error e, t) => .thrown ("Error: " ++ e.str) t

/-- `handle_call_tool`: dispatch on the tool name through the `elif`
chain; a name matching no branch raises
`ValueError(f"Unknown tool: {name}")`, which the surrounding `except`
re-raises as `Exception(f"Error: Unknown tool: {name}")` without having
touched the connection manager. -/
def handleCallTool (env : DispatchEnv) (envDef : EnvDefaults)
    (shared : TeamSpeakConnection) (name : String) (args : Args) :
    DispatchOutcome :=
  if name = "kick_client" then
    wrapHandler (kickClient env envDef shared args)
  else if name = "list_clients" then
    wrapHandler (listClients env envDef shared args)
  else if name ∈ TOOL_NAMES then .delegated name
  else
    .thrown ("Error: Unknown tool: " ++ name)
      { sessionResolutions := 0, connectCalls := 0, remoteCommands := [] }

/-! ## Shared concrete instances used by witnesses and counterexamples -/

/-- The cursor source of the spec's pagination scenario: pages carry the
cursors `5, 2, 2`, one log line per page. -/
def scenarioOracle : Nat → RemoteOutcome
  | 0 => .resp { parsed := some [some "line1"], last_pos := some 5 }
  | 1 => .resp { parsed := some [some "line2"], last_pos := some 2 }
  | _ => .resp { parsed := some [some "line3"], last_pos := some 2 }

/-- A remote that raises on every request. -/
def raisingOracle : Nat → RemoteOutcome := fun _ => .raised

/-- The loop state of the C2 counterexample: one line collected, cursor
`5`, one completed iteration. -/
def c2State : LoopState :=
  { all_logs := ["a"], current_pos := some 5, iteration := 1 }

/-- The response of the C2 counterexample: an empty page that nevertheless
carries the fresh, non-zero cursor `7`. -/
def c2Resp : LogResponse := { parsed := some [], last_pos := some 7 }

/-- Specification of the request found at overall position `j` of a
request trace produced from start position `startIdx` with cursor
`startCur`: the first request uses the held cursor, every later one uses
the cursor delivered by the response to the request before it. -/
def reqAt (oracle : Nat → RemoteOutcome) (lines : Nat) (rev inst : Bool)
    (startIdx : Nat) (startCur : Option Nat) (j : Nat)
    (req : LogRequest) : Prop :=
  if j = startIdx then req = mkRequest lines rev inst startCur
  else ∃ r np, oracle (j - 1) = .resp r ∧ r.last_pos = some np ∧
    req = mkRequest lines rev inst (some np)

/-- Environment defaults used by concrete dispatcher instances:
the built-in fallbacks of `parse_args`/`__init__`. -/
def envDef0 : EnvDefaults :=
  { host := "localhost", port := 10011, user := "serveradmin",
    password := "", server_id := 1 }

/-- The shared `ts_connection` right after startup: constructed from the
environment defaults, no live handle yet. -/
def shared0 : TeamSpeakConnection :=
  TeamSpeakConnection.init envDef0 none none none none none

/-- Remote outcomes where every operation succeeds. -/
def okOutcomes : ConnectOutcomes :=
  { transportOk := true, useOk := true, loginOk := true,
    tokenOk := true, whoamiOk := true }

/-- Remote outcomes where the transport handle is obtained but the
virtual-server selection (`use`) fails. -/
def useFailsOutcomes : ConnectOutcomes :=
  { transportOk := true, useOk := false, loginOk := true,
    tokenOk := true, whoamiOk := true }

/-- A dispatch environment where connecting and every remote command
succeed. -/
def denv0 : DispatchEnv :=
  { connectOutcomes := okOutcomes, clientkickResult := .ok (),
    clientlistResult := .ok [] }

/-! ## Helper lemmas about the pagination loop -/

/-- A continuing loop pass increments the iteration counter by one, and
adopts exactly the cursor delivered by the response. -/
theorem step_next_spec {s : LoopState} {r : LogResponse} {s1 : LoopState}
    (h : stepResponse s r = .next s1) :
    ∃ np, r.last_pos = some np ∧ s1.current_pos = some np ∧
      s1.iteration = s.iteration + 1 := by
  unfold stepResponse at h
  repeat' split at h
  all_goals (try exact StepOut.noConfusion h)
  rename_i np heq hcond
  cases h
  exact ⟨np, heq, rfl, rfl⟩

/-- Each pass of the loop issues exactly one request, so a run starting
with `fuel` remaining passes adds at most `fuel` requests to the trace. -/
theorem runLoopAux_length (oracle : Nat → RemoteOutcome) (lines : Nat)
    (rev inst : Bool) (N : Nat) :
    ∀ fuel s acc,
      ((runLoopAux oracle lines rev inst N fuel s acc).2).length ≤
        acc.length + fuel := by
  intro fuel
  induction fuel with
  | zero => intro s acc; simp [runLoopAux]
  | succ n ih =>
    intro s acc
    simp only [runLoopAux]
    split
    · split
      · simp
      · split
        · simp
        · rename_i s1 heq
          have h := ih s1 (acc ++ [mkRequest lines rev inst s.current_pos])
          simp at h
          omega
    · simp

/-- The request trace of a run extends the requests already issued. -/
theorem runLoopAux_prefix (oracle : Nat → RemoteOutcome) (lines : Nat)
    (rev inst : Bool) (N : Nat) :
    ∀ fuel s acc, ∃ t,
      (runLoopAux oracle lines rev inst N fuel s acc).2 = acc ++ t := by
  intro fuel
  induction fuel with
  | zero => intro s acc; exact ⟨[], by simp [runLoopAux]⟩
  | succ n ih =>
    intro s acc
    simp only [runLoopAux]
    split
    · split
      · exact ⟨[mkRequest lines rev inst s.current_pos], rfl⟩
      · split
        · exact ⟨[mkRequest lines rev inst s.current_pos], rfl⟩
        · obtain ⟨t, ht⟩ := ih _ (acc ++ [mkRequest lines rev inst s.current_pos])
          exact ⟨mkRequest lines rev inst s.current_pos :: t, by rw [ht]; simp⟩
    · exact ⟨[], by simp⟩

/-! ## C1: the fetch issues at most `max_iterations` requests -/

/-- C1: for every `max_iterations = N ≥ 1`, the complete-mode fetch
terminates (it is a total function) and issues at most `N` remote
`logview` requests, whatever outcomes and cursor values the oracle
yields. -/
theorem complete_fetch_request_bound (oracle : Nat → RemoteOutcome)
    (lines : Nat) (rev inst : Bool) (N : Nat) (_h : 1 ≤ N) :
    ((viewServerLogsComplete oracle lines rev inst N).2).length ≤ N := by
  have := runLoopAux_length oracle lines rev inst N N
    { all_logs := [], current_pos := none, iteration := 0 } []
  simpa [viewServerLogsComplete] using this

/-- Witness for C1 at `N = 3` against the scenario oracle. -/
theorem complete_fetch_request_bound_witness :
    1 ≤ 3 ∧
    ((viewServerLogsComplete scenarioOracle 100 true false 3).2).length ≤ 3 :=
  ⟨by decide,
   complete_fetch_request_bound scenarioOracle 100 true false 3 (by decide)⟩

/-! ## C2: which conditions end the pagination loop

The claim says the loop halts *exactly* when the response cursor is
absent, zero, or equal to the previous cursor.  The code also breaks on
an empty page (and stops requesting once the iteration cap is reached),
so the biconditional fails.
-/

/-- Counterexample to C2: on an empty page with a fresh non-zero cursor
the loop halts, although the cursor is present, non-zero, and different
from the previous one — so "halts exactly when absent/zero/repeated"
is false. -/
theorem cursor_halt_biconditional_cex :
    stepResponse c2State c2Resp = .halted c2State ∧
    c2Resp.last_pos ≠ none ∧
    c2Resp.last_pos ≠ some 0 ∧
    c2Resp.last_pos ≠ c2State.current_pos := by
  refine ⟨by decide, by decide, by decide, by decide⟩

/-- C2 amended: in a loop pass whose response passed the data checks
(a parsed page with at least one extracted line), the pass breaks exactly
when the cursor is absent, zero, or equal to the previous cursor, and in
all other cases it continues with the new cursor (a further request is
then issued only while `iteration < max_iterations`; a pass with no
extracted lines breaks before the cursor is consulted). -/
theorem cursor_halt_conditions (s : LoopState) (r : LogResponse)
    (entries : List LogEntry) (hp : r.parsed = some entries)
    (hb : extractBatch entries ≠ []) :
    (stepResponse s r =
        .halted { s with all_logs := s.all_logs ++ extractBatch entries } ↔
      (r.last_pos = none ∨ r.last_pos = some 0 ∨
       r.last_pos = s.current_pos)) ∧
    (∀ np, r.last_pos = some np → np ≠ 0 → some np ≠ s.current_pos →
      stepResponse s r =
        .next { all_logs := s.all_logs ++ extractBatch entries,
                current_pos := some np, iteration := s.iteration + 1 }) := by
  have hne : entries ≠ [] := by
    intro he; exact hb (by simp [he, extractBatch])
  rcases r with ⟨parsed, lp⟩
  simp only at hp
  subst hp
  constructor
  · cases lp with
    | none => simp [stepResponse, List.isEmpty_iff, hne, hb]
    | some np =>
      by_cases h0 : np = 0
      · subst h0
        simp [stepResponse, List.isEmpty_iff, hne, hb]
      · by_cases hsame : some np = s.current_pos
        · simp [stepResponse, List.isEmpty_iff, hne, hb, hsame, h0]
        · simp only [stepResponse, List.isEmpty_iff]
          rw [if_neg hne, if_neg hb, if_neg (by tauto)]
          constructor
          · intro h; simp at h
          · intro h
            rcases h with h | h | h
            · simp at h
            · simp at h; exact absurd h h0
            · exact absurd h hsame
  · intro np hnp h0 hsame
    subst hnp
    simp only [stepResponse, List.isEmpty_iff]
    rw [if_neg hne, if_neg hb, if_neg (by tauto)]

/-- Witness for C2 (amended) at a concrete one-line page with fresh
cursor `3`. -/
theorem cursor_halt_conditions_witness :
    (LogResponse.mk (some [some "x"]) (some 3)).parsed = some [some "x"] ∧
    extractBatch [some "x"] ≠ [] ∧
    ((stepResponse { all_logs := [], current_pos := none, iteration := 0 }
          { parsed := some [some "x"], last_pos := some 3 } =
        .halted { all_logs := [] ++ extractBatch [some "x"],
                  current_pos := none, iteration := 0 } ↔
      ((LogResponse.mk (some [some "x"]) (some 3)).last_pos = none ∨
       (LogResponse.mk (some [some "x"]) (some 3)).last_pos = some 0 ∨
       (LogResponse.mk (some [some "x"]) (some 3)).last_pos =
         LoopState.current_pos
           { all_logs := [], current_pos := none, iteration := 0 })) ∧
    (∀ np, (LogResponse.mk (some [some "x"]) (some 3)).last_pos = some np →
      np ≠ 0 →
      some np ≠ LoopState.current_pos
          { all_logs := [], current_pos := none, iteration := 0 } →
      stepResponse { all_logs := [], current_pos := none, iteration := 0 }
          { parsed := some [some "x"], last_pos := some 3 } =
        .next { all_logs := [] ++ extractBatch [some "x"],
                current_pos := some np, iteration := 0 + 1 })) :=
  ⟨rfl, by decide,
   cursor_halt_conditions
     { all_logs := [], current_pos := none, iteration := 0 }
     { parsed := some [some "x"], last_pos := some 3 }
     [some "x"] rfl (by decide)⟩

/-! ## C3: the spec's pagination scenario

Tracing the code on cursors `[5, 2, 2]` with one line per page: the
repeated cursor `2` is only observable after the *third* request, whose
line has already been appended, so the run issues 3 requests and returns
3 lines (the iteration counter, incremented only on continuing passes,
ends at 2, and the final cursor is 2).
-/

/-- Counterexample to C3: the run does not halt after the 2nd request
with 2 accumulated lines, as the claim states. -/
theorem scenario_run_cex :
    ¬(((viewServerLogsComplete scenarioOracle 100 true false 3).2).length = 2 ∧
      ((viewServerLogsComplete scenarioOracle 100 true false 3).1).all_logs.length = 2 ∧
      ((viewServerLogsComplete scenarioOracle 100 true false 3).1).iteration = 2 ∧
      ((viewServerLogsComplete scenarioOracle 100 true false 3).1).current_pos = some 2) := by
  decide

/-- C3 amended: the scenario run halts after the 3rd request (the one
that repeats cursor 2), returning 3 accumulated lines, an iteration count
of 2, and a final cursor of 2. -/
theorem scenario_run_amended :
    ((viewServerLogsComplete scenarioOracle 100 true false 3).2).length = 3 ∧
    ((viewServerLogsComplete scenarioOracle 100 true false 3).1).all_logs =
      ["line1", "line2", "line3"] ∧
    ((viewServerLogsComplete scenarioOracle 100 true false 3).1).iteration = 2 ∧
    ((viewServerLogsComplete scenarioOracle 100 true false 3).1).current_pos =
      some 2 := by
  decide

/-! ## C4: shape of the first and of every subsequent request -/

/-- Indexing a one-element extension of a trace at or past the old
length: the index must hit the new element. -/
theorem single_append_index {α : Type} (acc : List α) (a : α) (j : Nat)
    (x : α) (hge : acc.length ≤ j) (h : (acc ++ [a])[j]? = some x) :
    j = acc.length ∧ x = a := by
  rw [List.getElem?_append_right hge] at h
  cases hk : j - acc.length with
  | zero =>
    rw [hk] at h
    simp at h
    exact ⟨by omega, h.symm⟩
  | succ m =>
    rw [hk] at h
    simp at h

/-- Every request a run appends to the trace satisfies `reqAt`: the
request at the start position uses the cursor held on entry, every later
one uses the cursor of the response to the request before it. -/
theorem runLoopAux_reqAt (oracle : Nat → RemoteOutcome) (lines : Nat)
    (rev inst : Bool) (N : Nat) :
    ∀ fuel s acc j req, acc.length ≤ j →
      ((runLoopAux oracle lines rev inst N fuel s acc).2)[j]? = some req →
      reqAt oracle lines rev inst acc.length s.current_pos j req := by
  intro fuel
  induction fuel with
  | zero =>
    intro s acc j req hge hget
    simp only [runLoopAux] at hget
    rw [List.getElem?_len_le hge] at hget
    exact Option.noConfusion hget
  | succ n ih =>
    intro s acc j req hge hget
    simp only [runLoopAux] at hget
    split at hget
    · split at hget
      · obtain ⟨hj, hreq⟩ := single_append_index _ _ _ _ hge hget
        subst hj hreq
        simp [reqAt]
      · split at hget
        · obtain ⟨hj, hreq⟩ := single_append_index _ _ _ _ hge hget
          subst hj hreq
          simp [reqAt]
        · rename_i x1 r heqOr x2 s1 heqStep
          by_cases hj : j = acc.length
          · subst hj
            obtain ⟨t, ht⟩ := runLoopAux_prefix oracle lines rev inst N n
              s1 (acc ++ [mkRequest lines rev inst s.current_pos])
            rw [ht, List.append_assoc] at hget
            rw [List.getElem?_append_right (Nat.le_refl _)] at hget
            simp only [Nat.sub_self] at hget
            rw [List.getElem?_append_left (by simp)] at hget
            simp at hget
            subst hget
            simp [reqAt]
          · have hge2 : (acc ++ [mkRequest lines rev inst s.current_pos]).length ≤ j := by
              simp
              omega
            have H := ih s1 _ j req hge2 hget
            simp only [List.length_append, List.length_cons,
              List.length_nil, Nat.zero_add] at H
            obtain ⟨np, hnp, hcur, _⟩ := step_next_spec heqStep
            unfold reqAt at H ⊢
            rw [if_neg hj]
            by_cases hj2 : j = acc.length + 1
            · rw [if_pos hj2] at H
              refine ⟨r, np, ?_, hnp, ?_⟩
              · rw [show j - 1 = acc.length by omega]
                exact heqOr
              · rw [hcur] at H
                exact H
            · rw [if_neg hj2] at H
              exact H
    · rw [List.getElem?_len_le hge] at hget
      exact Option.noConfusion hget

/-- C4: the first `logview` request of a complete-mode fetch carries no
cursor and asks for `min(requested_lines, 100)` lines; every subsequent
request carries exactly the cursor delivered by the previous response and
asks for exactly 1 line (both with the given `reverse`/`instance` flags). -/
theorem first_and_subsequent_requests (oracle : Nat → RemoteOutcome)
    (lines : Nat) (rev inst : Bool) (N : Nat) (j : Nat) (req : LogRequest)
    (hget : ((viewServerLogsComplete oracle lines rev inst N).2)[j]? =
      some req) :
    (j = 0 → req = { lines := min lines 100, reverse := rev,
                     instance_log := inst, begin_pos := none }) ∧
    (0 < j → ∃ r np, oracle (j - 1) = .resp r ∧ r.last_pos = some np ∧
      req = { lines := 1, reverse := rev, instance_log := inst,
              begin_pos := some np }) := by
  simp only [viewServerLogsComplete] at hget
  have H := runLoopAux_reqAt oracle lines rev inst N N
    { all_logs := [], current_pos := none, iteration := 0 } [] j req
    (by simp) hget
  unfold reqAt at H
  simp only [List.length_nil] at H
  constructor
  · intro hj
    subst hj
    rw [if_pos rfl] at H
    simpa [mkRequest] using H
  · intro hj
    rw [if_neg (by omega)] at H
    obtain ⟨r, np, h1, h2, h3⟩ := H
    exact ⟨r, np, h1, h2, by simpa [mkRequest] using h3⟩

/-- Witness for C4 at the scenario oracle, request index 1. -/
theorem first_and_subsequent_requests_witness :
    ((viewServerLogsComplete scenarioOracle 100 true false 3).2)[1]? =
      some { lines := 1, reverse := true, instance_log := false,
             begin_pos := some 5 } ∧
    ((1 = 0 → ({ lines := 1, reverse := true, instance_log := false,
                 begin_pos := some 5 : LogRequest }) =
        { lines := min 100 100, reverse := true, instance_log := false,
          begin_pos := none }) ∧
     (0 < 1 → ∃ r np, scenarioOracle (1 - 1) = .resp r ∧
        r.last_pos = some np ∧
        ({ lines := 1, reverse := true, instance_log := false,
           begin_pos := some 5 : LogRequest }) =
          { lines := 1, reverse := true, instance_log := false,
            begin_pos := some np })) :=
  ⟨by decide,
   first_and_subsequent_requests scenarioOracle 100 true false 3 1
     { lines := 1, reverse := true, instance_log := false,
       begin_pos := some 5 } (by decide)⟩

/-! ## C10: a raising request never propagates -/

/-- C10: whenever the loop is about to issue a request — holding state
`s` (the lines, iteration count and cursor accumulated by the completed
iterations) after issuing the requests `acc` — and that request raises,
the fetch catches the exception and returns exactly `s`, with only the
failing request appended to the trace.  Instantiating `s` with the
initial state and `acc = []` covers an exception on the very first
request. -/
theorem raising_request_returns_accumulated (oracle : Nat → RemoteOutcome)
    (lines : Nat) (rev inst : Bool) (N fuel : Nat) (s : LoopState)
    (acc : List LogRequest) (hfuel : 0 < fuel) (hiter : s.iteration < N)
    (hraise : oracle acc.length = .raised) :
    runLoopAux oracle lines rev inst N fuel s acc =
      (s, acc ++ [mkRequest lines rev inst s.current_pos]) := by
  cases fuel with
  | zero => omega
  | succ n =>
    simp only [runLoopAux]
    rw [if_pos hiter, hraise]

/-- Witness for C10: the very first request raising yields the empty
accumulation, iteration count 0 and no cursor. -/
theorem raising_request_returns_accumulated_witness :
    0 < 3 ∧
    LoopState.iteration
      { all_logs := [], current_pos := none, iteration := 0 } < 3 ∧
    raisingOracle (List.length ([] : List LogRequest)) = .raised ∧
    runLoopAux raisingOracle 100 true false 3 3
        { all_logs := [], current_pos := none, iteration := 0 } [] =
      ({ all_logs := [], current_pos := none, iteration := 0 },
       [] ++ [mkRequest 100 true false none]) :=
  ⟨by decide, by decide, rfl,
   raising_request_returns_accumulated raisingOracle 100 true false 3 3
     { all_logs := [], current_pos := none, iteration := 0 } []
     (by decide) (by decide) rfl⟩

/-! ## C7: when `connect` returns false

The code returns `False` whenever any exception escapes the outer `try`,
which happens not only when the transport handle cannot be obtained but
also when the subsequent virtual-server selection (`use(sid)`) fails —
a case the claim's "handle obtained implies true" misses.
-/

/-- Counterexample to C7: with the transport handle obtained but the
virtual-server selection failing, `connect` returns `False` even though
login, token redemption and `whoami` would all succeed. -/
theorem connect_use_failure_cex :
    (shared0.connect useFailsOutcomes).1 = false ∧
    (shared0.connect useFailsOutcomes).2.2.transportObtained = true := by
  decide

/-- C7 amended: `connect` returns `True` iff the transport handle is
obtained *and* the virtual-server selection succeeds; the outcomes of
the principal/secret login, the token redemption and the `whoami`
diagnostic query never affect the result. -/
theorem connect_result_characterization (c : TeamSpeakConnection)
    (oc : ConnectOutcomes) :
    (c.connect oc).1 = (oc.transportOk && oc.useOk) := by
  unfold TeamSpeakConnection.connect
  rcases oc with ⟨t, u, l, tk, w⟩
  cases t <;> cases u <;> simp

/-! ## C8: ephemeral sessions never touch the shared session -/

/-- C8: resolving a session for arguments that carry per-call
credentials yields a brand-new ephemeral connection — a fresh object
with no live handle, distinct from the shared one — and leaves every
field of the shared connection (host, port, user, password, server id,
live handle) unchanged. -/
theorem ephemeral_resolution_frame (env : EnvDefaults)
    (shared : TeamSpeakConnection) (creds : Creds) :
    (get_connection_from_args env shared (some creds)).1 ≠ .sharedConn ∧
    (∃ c, (get_connection_from_args env shared (some creds)).1 =
        .ephemeral c ∧ c.connection = none) ∧
    (get_connection_from_args env shared (some creds)).2.host =
      shared.host ∧
    (get_connection_from_args env shared (some creds)).2.port =
      shared.port ∧
    (get_connection_from_args env shared (some creds)).2.user =
      shared.user ∧
    (get_connection_from_args env shared (some creds)).2.password =
      shared.password ∧
    (get_connection_from_args env shared (some creds)).2.server_id =
      shared.server_id ∧
    (get_connection_from_args env shared (some creds)).2.connection =
      shared.connection :=
  ⟨by simp [get_connection_from_args],
   ⟨_, rfl, rfl⟩, rfl, rfl, rfl, rfl, rfl, rfl⟩

/-! ## C9: the insufficient-privilege code gets a remediation message -/

/-- C9: an error message carrying the known insufficient-privilege code
`error id 2568` makes `_list_clients` return the expanded remediation
envelope — never a raised error — while a message matching neither known
signature takes the generic path and re-raises the bare error string; the
last conjunct shows the envelope surfacing through the handler when the
remote `clientlist` fails with such a message on a connected session. -/
theorem privilege_error_remediation (conn : TeamSpeakConnection)
    (msg : String) (h : containsSub "error id 2568" msg = true) :
    listClientsCatch conn msg =
      .ok [listClientsPermissionDiagnostic conn] ∧
    (∀ e, listClientsCatch conn msg ≠ .error e) ∧
    (∀ msg2, containsSub "error id 2568" msg2 = false →
      containsSub "insufficient client permissions" msg2 = false →
      listClientsCatch conn msg2 =
        .error (.exc ("Error retrieving clients: " ++ msg2))) ∧
    (∀ env envDef shared2, env.clientlistResult = .error msg →
      shared2.is_connected = true →
      listClients env envDef shared2 [] =
        (.ok [listClientsPermissionDiagnostic shared2],
         { sessionResolutions := 1, connectCalls := 0,
           remoteCommands := ["clientlist"] })) := by
  refine ⟨?_, ?_, ?_, ?_⟩
  · simp [listClientsCatch, h]
  · intro e
    simp [listClientsCatch, h]
  · intro msg2 h1 h2
    simp [listClientsCatch, h1, h2]
  · intro env envDef shared2 herr hconn
    simp [listClients, resolveAndConnect, Args.getCreds, Args.get,
      get_connection_from_args, hconn, herr, listClientsCatch, h]

/-- Witness for C9 at a concrete message carrying the code. -/
theorem privilege_error_remediation_witness :
    containsSub "error id 2568" "msg error id 2568" = true ∧
    (listClientsCatch shared0 "msg error id 2568" =
        .ok [listClientsPermissionDiagnostic shared0] ∧
     (∀ e, listClientsCatch shared0 "msg error id 2568" ≠ .error e) ∧
     (∀ msg2, containsSub "error id 2568" msg2 = false →
       containsSub "insufficient client permissions" msg2 = false →
       listClientsCatch shared0 msg2 =
         .error (.exc ("Error retrieving clients: " ++ msg2))) ∧
     (∀ env envDef shared2,
       env.clientlistResult = .error "msg error id 2568" →
       shared2.is_connected = true →
       listClients env envDef shared2 [] =
         (.ok [listClientsPermissionDiagnostic shared2],
          { sessionResolutions := 1, connectCalls := 0,
            remoteCommands := ["clientlist"] }))) :=
  ⟨by decide,
   privilege_error_remediation shared0 "msg error id 2568" (by decide)⟩

/-! ## C5: invoking `kick_client` without `client_id`

The handler resolves the session and attempts the connection *before*
reading `client_id`; the missing key then raises a `KeyError`, which the
dispatcher re-raises as a thrown error — no ValidationError envelope is
returned, and a connection attempt has already been made.
-/

/-- Counterexample to C5: `invoke("kick_client", {})` against a
not-yet-connected shared session throws `Error: 'client_id'` after one
connection attempt; it does not return an envelope. -/
theorem missing_required_arg_cex :
    handleCallTool denv0 envDef0 shared0 "kick_client" [] =
      .thrown ("Error: \x27client_id\x27")
        { sessionResolutions := 1, connectCalls := 1,
          remoteCommands := [] } ∧
    ¬∃ texts t, handleCallTool denv0 envDef0 shared0 "kick_client" [] =
        .envelope texts t ∧ t.connectCalls = 0 := by
  have h : handleCallTool denv0 envDef0 shared0 "kick_client" [] =
      .thrown ("Error: \x27client_id\x27")
        { sessionResolutions := 1, connectCalls := 1,
          remoteCommands := [] } := by decide
  refine ⟨h, ?_⟩
  rintro ⟨texts, t, heq, -⟩
  rw [h] at heq
  exact DispatchOutcome.noConfusion heq

/-- C5 amended: for every environment, `invoke("kick_client", {})`
resolves the session once, attempts `connect` exactly when the shared
session is not live, never issues the remote `clientkick` command, and
ends in a thrown error (a failed connect throws the connection error;
otherwise the missing `client_id` throws the re-raised `KeyError`) —
never in a returned envelope. -/
theorem missing_required_arg_behavior (env : DispatchEnv)
    (envDef : EnvDefaults) (shared : TeamSpeakConnection) :
    ∃ msg t, handleCallTool env envDef shared "kick_client" [] =
        .thrown msg t ∧
      t.remoteCommands = [] ∧
      t.sessionResolutions = 1 ∧
      t.connectCalls = (if shared.is_connected then 0 else 1) := by
  unfold handleCallTool
  rw [if_pos rfl]
  unfold kickClient resolveAndConnect
  have hcreds : Args.getCreds [] = none := rfl
  have hcid : Args.get ([] : Args) "client_id" = none := rfl
  rw [hcreds]
  unfold get_connection_from_args
  by_cases hc : shared.is_connected = true
  · simp only [hc, if_true, hcid, wrapHandler]
    exact ⟨_, _, rfl, rfl, rfl, by simp [hc]⟩
  · rw [Bool.not_eq_true] at hc
    simp only [hc, Bool.false_eq_true, if_false, hcid]
    rcases hsc : shared.connect env.connectOutcomes with ⟨success, conn2, tr⟩
    simp only [hsc]
    cases success
    · simp only [Bool.false_eq_true, if_false, wrapHandler]
      exact ⟨_, _, rfl, rfl, rfl, by simp [hc]⟩
    · simp only [if_true, wrapHandler]
      exact ⟨_, _, rfl, rfl, rfl, by simp [hc]⟩

/-! ## C6: unknown tool names throw without touching the connection -/

/-- C6: a tool name outside the dispatch chain's registry makes
`handle_call_tool` throw the re-raised `Unknown tool` error, with no
session resolution, no connection attempt, and no remote command. -/
theorem unknown_tool_throws (env : DispatchEnv) (envDef : EnvDefaults)
    (shared : TeamSpeakConnection) (name : String) (args : Args)
    (h : name ∉ TOOL_NAMES) :
    handleCallTool env envDef shared name args =
      .thrown ("Error: Unknown tool: " ++ name)
        { sessionResolutions := 0, connectCalls := 0,
          remoteCommands := [] } := by
  have h1 : ¬(name = "kick_client") := by
    intro e
    exact h (by rw [e]; decide)
  have h2 : ¬(name = "list_clients") := by
    intro e
    exact h (by rw [e]; decide)
  unfold handleCallTool
  rw [if_neg h1, if_neg h2, if_neg h]

/-- Witness for C6 at the unregistered name `frobnicate`. -/
theorem unknown_tool_throws_witness :
    "frobnicate" ∉ TOOL_NAMES ∧
    handleCallTool denv0 envDef0 shared0 "frobnicate" [] =
      .thrown ("Error: Unknown tool: " ++ "frobnicate")
        { sessionResolutions := 0, connectCalls := 0,
          remoteCommands := [] } :=
  ⟨by decide,
   unknown_tool_throws denv0 envDef0 shared0 "frobnicate" [] (by decide)⟩

end TeamSpeakMCP
